import Mathlib

/-!
Shallow embedding of the ivshmem kernel driver (`kvm_ivshmem.c`) and of the
verification pass of its companion test program (`memtest.c`).

The driver keeps two process-wide wait primitives: a counting semaphore
(`sema`) and an integer event flag (`event_num`), fed by the interrupt
handler and consumed by the ioctl entry point.  The data window is the PCI
BAR2 region of `ioaddr_size` bytes reached through `base_addr`.
-/

namespace Ivshmem

/-- Ioctl command codes, in the declaration order of `enum ivshmem_ioctl`
in kvm_ivshmem.c: set_sema, down_sema, empty, wait_event, wait_event_irq,
read_ivposn, read_livelist, sema_irq get the values 0..7. -/
def set_sema : Nat := 0

def down_sema : Nat := 1

def empty : Nat := 2

def wait_event : Nat := 3

def wait_event_irq : Nat := 4

def read_ivposn : Nat := 5

def read_livelist : Nat := 6

def sema_irq : Nat := 7

/-- State of the driver's two wait primitives: the count of the global
semaphore `sema` and the global flag `event_num` (0 or 1 in the code). -/
structure WaitState where
  semaCount : Nat
  eventNum : Nat
  deriving DecidableEq, Repr

/-- Return value of the interrupt handler: IRQ_NONE or IRQ_HANDLED. -/
inductive IrqRet where
  | irqNone
  | irqHandled
  deriving DecidableEq, Repr

/-- The interrupt dispatcher `kvm_ivshmem_interrupt` on a non-NULL device:
read the 32-bit status register; 0 or 0xFFFFFFFF means spurious (IRQ_NONE,
no state change); a status equal to `sema_irq` does `up(&sema)`; a status
equal to `wait_event_irq` sets `event_num = 1` and wakes the wait queue;
anything else falls through; all non-spurious statuses return IRQ_HANDLED. -/
def kvm_ivshmem_interrupt (status : Nat) (st : WaitState) : IrqRet × WaitState :=
  if status = 0 ∨ status = 0xFFFFFFFF then
    (IrqRet.irqNone, st)
  else if status = sema_irq then
    (IrqRet.irqHandled, { st with semaCount := st.semaCount + 1 })
  else if status = wait_event_irq then
    (IrqRet.irqHandled, { st with eventNum := 1 })
  else
    (IrqRet.irqHandled, st)

/-- The doorbell value built by the ring commands of `kvm_ivshmem_ioctl`:
`msg = ((arg & 0xff) << 8) + (cmd & 0xff)`, stored in a uint32_t. -/
def ioctlMsg (cmd arg : Nat) : Nat :=
  (((arg % 256) <<< 8) + cmd % 256) % 2 ^ 32

/-- The ioctl entry point `kvm_ivshmem_ioctl` acting on the wait state.
`interrupted` says whether a signal is delivered while the call is blocked
in `down_interruptible` / `wait_event_interruptible`.  The result is `none`
when the call blocks without ever being signalled or woken, and otherwise
`some (ret, st, doorbell)` with the ioctl's return value, the new wait
state, and the value written to the Doorbell register if any.  Faithful
details: the return value of `down_interruptible` is assigned to `rv` and
never read, the return value of `wait_event_interruptible` is discarded,
`event_num = 0` runs unconditionally after the wait, and the function ends
with `return 0` on every path. -/
def kvm_ivshmem_ioctl (cmd arg : Nat) (st : WaitState) (interrupted : Bool) :
    Option (Int × WaitState × Option Nat) :=
  if cmd = set_sema then
    some (0, { st with semaCount := arg }, none)
  else if cmd = down_sema then
    (if st.semaCount > 0 then
      some (0, { st with semaCount := st.semaCount - 1 }, none)
    else if interrupted then
      some (0, st, none)
    else
      none)
  else if cmd = empty then
    some (0, st, some (ioctlMsg cmd arg))
  else if cmd = wait_event then
    (if st.eventNum = 1 then
      some (0, { st with eventNum := 0 }, none)
    else if interrupted then
      some (0, { st with eventNum := 0 }, none)
    else
      none)
  else if cmd = wait_event_irq then
    some (0, st, some (ioctlMsg cmd arg))
  else if cmd = read_ivposn then
    some (0, st, none)
  else if cmd = sema_irq then
    some (0, st, some (ioctlMsg cmd arg))
  else
    some (0, st, none)

/-- Doorbell component of an ioctl result. -/
def doorbellOf (r : Option (Int × WaitState × Option Nat)) : Option Nat :=
  r.bind (fun t => t.2.2)

/-- The data window of the device: whether `base_addr` is non-NULL (the
window was mapped) and `ioaddr_size`, the window size in bytes. -/
structure DataWindow where
  baseMapped : Bool
  ioaddrSize : Nat
  deriving DecidableEq, Repr

/-- Modulus of the 64-bit unsigned arithmetic the driver's size checks use
(`offset` is an unsigned long, `len` a size_t). -/
def U64 : Nat := 2 ^ 64

/-- 64-bit unsigned subtraction `a - b` as C computes it. -/
def usub64 (a b : Nat) : Nat :=
  (a % U64 + U64 - b % U64) % U64

/-- `kvm_ivshmem_read`: returns `(result, new file position)`.  If
`base_addr` is NULL it logs and returns 0.  Then `len` is clamped by
`if (len > ioaddr_size - offset) len = ioaddr_size - offset;` computed in
unsigned arithmetic, a zero `len` returns 0, and otherwise the copy (which
we take to succeed) advances the position and returns `len`. -/
def kvm_ivshmem_read (dev : DataWindow) (poffset len : Nat) : Int × Nat :=
  if dev.baseMapped = false then
    (0, poffset)
  else
    let len1 := if len > usub64 dev.ioaddrSize poffset then usub64 dev.ioaddrSize poffset else len
    if len1 = 0 then (0, poffset)
    else ((len1 : Int), poffset + len1)

/-- `kvm_ivshmem_write`: identical control flow to `kvm_ivshmem_read`
(NULL check, unsigned clamp, zero-length early return, advance and return
`len` when the copy succeeds). -/
def kvm_ivshmem_write (dev : DataWindow) (poffset len : Nat) : Int × Nat :=
  if dev.baseMapped = false then
    (0, poffset)
  else
    let len1 := if len > usub64 dev.ioaddrSize poffset then usub64 dev.ioaddrSize poffset else len
    if len1 = 0 then (0, poffset)
    else ((len1 : Int), poffset + len1)

def SEEK_SET : Nat := 0

def SEEK_CUR : Nat := 1

def SEEK_END : Nat := 2

/-- `kvm_ivshmem_lseek`: returns `(retval, new f_pos)`.  SEEK_CUR adds
`f_pos` to `offset` and falls through to the SEEK_SET body, which sets
`retval` to the (unclamped) offset, clamps the offset to `ioaddr_size`,
and stores it in `f_pos`.  Any other origin leaves `retval = -1` and does
not touch `f_pos`. -/
def kvm_ivshmem_lseek (size : Nat) (fpos offset : Int) (origin : Nat) : Int × Int :=
  match origin with
  | 0 => (offset, if offset > (size : Int) then (size : Int) else offset)
  | 1 =>
      let o := offset + fpos
      (o, if o > (size : Int) then (size : Int) else o)
  | _ => (-1, fpos)

/-- Outcome of the verify branch of `memtest` in memtest.c: `ret` is the
function's return value, `shutdown` the value of `vm_control->shutdown`
after the call, `firstBad` the index printed by the mismatch report. -/
structure VerifyOutcome where
  ret : Nat
  shutdown : Bool
  firstBad : Option Nat
  deriving DecidableEq, Repr

/-- The inner scan of the verify branch, starting at slot index `k`:
report the first index `n` whose slot differs from `n ^ data`. -/
def scanFrom (d : Nat) : List Nat → Nat → Option Nat
  | [], _ => none
  | v :: rest, n => if v ≠ n ^^^ d then some n else scanFrom d rest (n + 1)

/-- The verify branch of `memtest` with its outer loop of `loops` passes
over an unchanging window: a mismatch sets `ret_val = 1`, sets
`vm_control->shutdown = 1` and jumps to the exit label; completing all
passes leaves `ret_val = 0` and the shutdown flag untouched. -/
def verifyLoops (mem : List Nat) (d : Nat) (s0 : Bool) : Nat → VerifyOutcome
  | 0 => ⟨0, s0, none⟩
  | l + 1 =>
      match scanFrom d mem 0 with
      | some n => ⟨1, true, some n⟩
      | none => verifyLoops mem d s0 l

def TEST_LOOPS : Nat := 500

/-- `memtest(data, 1)` on window contents `mem` with shutdown flag `s0`. -/
def memtest_verify (mem : List Nat) (d : Nat) (s0 : Bool) : VerifyOutcome :=
  verifyLoops mem d s0 TEST_LOOPS

/-- Run the interrupt dispatcher over a list of delivered status values. -/
def runIrqs : List Nat → WaitState → WaitState
  | [], st => st
  | v :: l, st => runIrqs l (kvm_ivshmem_interrupt v st).2

/-- One `down_sema` ioctl with no signal pending: `some` of the new state
when the call completes without blocking, `none` when it blocks. -/
def downOnce (st : WaitState) : Option WaitState :=
  (kvm_ivshmem_ioctl down_sema 0 st false).map (fun r => r.2.1)

/-- `n` consecutive `down_sema` ioctl calls, all required to complete. -/
def downsN : Nat → WaitState → Option WaitState
  | 0, st => some st
  | n + 1, st => (downOnce st).bind (downsN n)

/-- One semaphore-signal dispatch increments the count and reports handled. -/
theorem interrupt_sema (st : WaitState) :
    kvm_ivshmem_interrupt sema_irq st =
      (IrqRet.irqHandled, ⟨st.semaCount + 1, st.eventNum⟩) := rfl

/-- Delivering `n` semaphore signals adds `n` to the count. -/
theorem runIrqs_replicate_sema (n : Nat) (st : WaitState) :
    runIrqs (List.replicate n sema_irq) st = ⟨st.semaCount + n, st.eventNum⟩ := by
  induction n generalizing st with
  | zero => rfl
  | succ n ih =>
      rw [List.replicate_succ]
      show runIrqs (List.replicate n sema_irq) ⟨st.semaCount + 1, st.eventNum⟩ = _
      rw [ih]
      dsimp only
      congr 1
      omega

/-- A `down_sema` call on a positive count decrements it without blocking. -/
theorem downOnce_succ (c ev : Nat) : downOnce ⟨c + 1, ev⟩ = some ⟨c, ev⟩ := by
  have h : 0 < c + 1 := Nat.succ_pos c
  simp [downOnce, kvm_ivshmem_ioctl, down_sema, set_sema, h]

/-- A `down_sema` call on a zero count blocks. -/
theorem downOnce_zero (ev : Nat) : downOnce ⟨0, ev⟩ = none := rfl

/-- From a count of `n + k`, exactly `n` consecutive `down_sema` calls
complete, leaving count `k`. -/
theorem downsN_exact (n : Nat) : ∀ (k ev : Nat), downsN n ⟨n + k, ev⟩ = some ⟨k, ev⟩ := by
  induction n with
  | zero =>
      intro k ev
      simp only [downsN, Nat.zero_add]
  | succ n ih =>
      intro k ev
      rw [show n + 1 + k = n + k + 1 by omega]
      show (downOnce ⟨n + k + 1, ev⟩).bind (downsN n) = some ⟨k, ev⟩
      rw [downOnce_succ]
      exact ih k ev

/-- From a count of `n`, a run of `n + 1` `down_sema` calls blocks. -/
theorem downsN_blocks (n : Nat) : ∀ ev : Nat, downsN (n + 1) ⟨n, ev⟩ = none := by
  induction n with
  | zero => intro ev; rfl
  | succ n ih =>
      intro ev
      show (downOnce ⟨n + 1, ev⟩).bind (downsN (n + 1)) = none
      rw [downOnce_succ]
      exact ih ev

/-- C1 counterexample: ringing the `empty` doorbell at target peer 1 writes
0x102 to the Doorbell register, not `(1 << 16) | empty = 0x10002` as the
claim's formula requires. -/
theorem C1_counterexample :
    doorbellOf (kvm_ivshmem_ioctl empty 1 ⟨0, 0⟩ false) = some 0x102 ∧
    (0x102 : Nat) ≠ ((1 <<< 16) ||| empty) := by
  exact ⟨rfl, by decide⟩

/-- C1 (amended): for every ring command (`empty`, `wait_event_irq`,
`sema_irq`) the 32-bit value written to the doorbell register equals
`((target_peer & 0xff) << 8) + opcode`: the low 8 bits of the target peer
occupy bits 8..15 and the operation code the low 8 bits; the peer identity
is not placed in the upper 16 bits. -/
theorem C1_doorbell_message (arg : Nat) (st : WaitState) (c : Nat)
    (h : c = empty ∨ c = wait_event_irq ∨ c = sema_irq) :
    doorbellOf (kvm_ivshmem_ioctl c arg st false) = some (ioctlMsg c arg) ∧
    ioctlMsg c arg % 256 = c ∧
    ioctlMsg c arg >>> 8 = arg % 256 := by
  have harg : arg % 256 < 256 := Nat.mod_lt _ (by omega)
  rcases h with h | h | h <;> subst h <;>
    refine ⟨rfl, ?_, ?_⟩ <;>
    simp only [ioctlMsg, Nat.shiftLeft_eq, Nat.shiftRight_eq_div_pow, empty,
      wait_event_irq, sema_irq] <;>
    omega

/-- C1 witness: the amended statement at target peer 1 and opcode `empty`. -/
theorem C1_doorbell_witness :
    doorbellOf (kvm_ivshmem_ioctl 2 1 ⟨0, 0⟩ false) = some (ioctlMsg 2 1) ∧
    ioctlMsg 2 1 % 256 = 2 ∧
    ioctlMsg 2 1 >>> 8 = 1 % 256 :=
  C1_doorbell_message 1 ⟨0, 0⟩ 2 (Or.inl rfl)

/-- C2 counterexample: the status value 0x107 has the semaphore-signal code
7 in its lower 8 bits, yet the dispatcher leaves the semaphore count (and
all wait state) unchanged, because it compares the whole 32-bit status with
the code; it still returns handled. -/
theorem C2_counterexample :
    (0x107 : Nat) % 256 = sema_irq ∧
    kvm_ivshmem_interrupt 0x107 ⟨0, 0⟩ = (IrqRet.irqHandled, ⟨0, 0⟩) := by
  exact ⟨rfl, rfl⟩

/-- C2 (amended): for every status value that is neither zero nor all-ones,
the dispatcher classifies by comparing the entire status value with the
operation codes: a status exactly equal to the semaphore-signal code
increments the semaphore count, a status exactly equal to the event-signal
code sets the event flag, any other status changes no wait-primitive state,
and in all these cases the dispatcher returns handled. -/
theorem C2_dispatch_by_whole_status (status : Nat) (st : WaitState)
    (h0 : status ≠ 0) (h1 : status ≠ 0xFFFFFFFF) :
    (status = sema_irq →
      kvm_ivshmem_interrupt status st =
        (IrqRet.irqHandled, { st with semaCount := st.semaCount + 1 })) ∧
    (status = wait_event_irq →
      kvm_ivshmem_interrupt status st =
        (IrqRet.irqHandled, { st with eventNum := 1 })) ∧
    (status ≠ sema_irq → status ≠ wait_event_irq →
      kvm_ivshmem_interrupt status st = (IrqRet.irqHandled, st)) := by
  refine ⟨?_, ?_, ?_⟩ <;> intros <;>
    simp_all [kvm_ivshmem_interrupt, sema_irq, wait_event_irq]

/-- C2 witness: the amended statement at status 7 (the semaphore code). -/
theorem C2_dispatch_witness :
    kvm_ivshmem_interrupt 7 ⟨0, 0⟩ = (IrqRet.irqHandled, ⟨1, 0⟩) :=
  (C2_dispatch_by_whole_status 7 ⟨0, 0⟩ (by decide) (by decide)).1 rfl

/-- C3 at the failing input: a `down_sema` call blocked on a zero count and
then interrupted by a signal returns 0 (the `-EINTR` from
`down_interruptible` is stored in `rv` and never used), not an Interrupted
failure; a `wait_event` call interrupted the same way also returns 0 and
reaches the unconditional `event_num = 0` store.  The semaphore count is,
as the claim says, not decremented. -/
theorem C3_interrupted_returns_zero :
    kvm_ivshmem_ioctl down_sema 0 ⟨0, 0⟩ true = some (0, ⟨0, 0⟩, none) ∧
    kvm_ivshmem_ioctl wait_event 0 ⟨0, 0⟩ true = some (0, ⟨0, 0⟩, none) := by
  exact ⟨rfl, rfl⟩

/-- C4 at the failing input: on a 4-byte window, a read or write at offset
5 is not truncated to zero bytes — the clamp computes `4 - 5` in unsigned
64-bit arithmetic, which wraps, so one byte is transferred from past the
window end and the position advances to 6.  The in-range cases behave as
the claim says: offset 4 transfers zero bytes and offset 2 with length 10
is truncated to 2 bytes. -/
theorem C4_offset_past_end_not_truncated :
    kvm_ivshmem_read ⟨true, 4⟩ 5 1 = (1, 6) ∧
    kvm_ivshmem_write ⟨true, 4⟩ 5 1 = (1, 6) ∧
    kvm_ivshmem_read ⟨true, 4⟩ 4 1 = (0, 4) ∧
    kvm_ivshmem_read ⟨true, 4⟩ 2 10 = (2, 4) := by
  refine ⟨?_, ?_, ?_, ?_⟩ <;> rfl

/-- C5 counterexample: a read on a never-mapped window returns 0, exactly
the value a successful zero-byte transfer at the window end returns, so the
result is not an error distinguishable from a zero-byte transfer; the write
path behaves the same. -/
theorem C5_counterexample :
    kvm_ivshmem_read ⟨false, 4096⟩ 0 4 = (0, 0) ∧
    kvm_ivshmem_write ⟨false, 4096⟩ 0 4 = (0, 0) ∧
    kvm_ivshmem_read ⟨true, 4096⟩ 4096 4 = (0, 4096) ∧
    (kvm_ivshmem_read ⟨false, 4096⟩ 0 4).1 = (kvm_ivshmem_read ⟨true, 4096⟩ 4096 4).1 := by
  refine ⟨?_, ?_, ?_, ?_⟩ <;> rfl

/-- C5 (amended): every read and every write on a device whose window was
never mapped logs an error and returns 0 with the position unchanged — a
zero-byte transfer result, not a distinguishable error code. -/
theorem C5_unmapped_returns_zero (dev : DataWindow) (off len : Nat)
    (h : dev.baseMapped = false) :
    kvm_ivshmem_read dev off len = (0, off) ∧
    kvm_ivshmem_write dev off len = (0, off) := by
  constructor <;> simp [kvm_ivshmem_read, kvm_ivshmem_write, h]

/-- C5 witness: the amended statement on an unmapped 4096-byte window. -/
theorem C5_unmapped_witness :
    kvm_ivshmem_read ⟨false, 4096⟩ 2 4 = (0, 2) ∧
    kvm_ivshmem_write ⟨false, 4096⟩ 2 4 = (0, 2) :=
  C5_unmapped_returns_zero ⟨false, 4096⟩ 2 4 rfl

/-- C6: a status of zero or all-ones makes the dispatcher return not
handled and leave both the semaphore count and the event flag exactly as
they were. -/
theorem C6_spurious_status_not_handled (st : WaitState) :
    kvm_ivshmem_interrupt 0 st = (IrqRet.irqNone, st) ∧
    kvm_ivshmem_interrupt 0xFFFFFFFF st = (IrqRet.irqNone, st) := by
  exact ⟨rfl, rfl⟩

/-- C8: a `wait_event` call made while the event flag is already set
completes without blocking (even if a signal is pending), returns 0, and
clears the flag. -/
theorem C8_no_lost_wakeup (st : WaitState) (intr : Bool) (h : st.eventNum = 1) :
    kvm_ivshmem_ioctl wait_event 0 st intr = some (0, ⟨st.semaCount, 0⟩, none) := by
  simp [kvm_ivshmem_ioctl, wait_event, set_sema, down_sema, empty, h]

/-- C8 witness: the flag-already-set case at a concrete state. -/
theorem C8_no_lost_wakeup_witness :
    kvm_ivshmem_ioctl wait_event 0 ⟨5, 1⟩ false = some (0, ⟨5, 0⟩, none) :=
  C8_no_lost_wakeup ⟨5, 1⟩ false rfl

/-- C10: every seek whose origin is neither SEEK_SET nor SEEK_CUR returns
-1 and leaves the file position unchanged. -/
theorem C10_lseek_bad_origin (size : Nat) (fpos offset : Int) (origin : Nat)
    (h0 : origin ≠ SEEK_SET) (h1 : origin ≠ SEEK_CUR) :
    kvm_ivshmem_lseek size fpos offset origin = (-1, fpos) := by
  obtain ⟨n, rfl⟩ : ∃ n, origin = n + 2 := by
    refine ⟨origin - 2, ?_⟩
    simp only [SEEK_SET, SEEK_CUR] at h0 h1
    omega
  rfl

/-- C10 witness: SEEK_END, the origin the test program's size query uses. -/
theorem C10_lseek_witness :
    kvm_ivshmem_lseek 4096 7 0 SEEK_END = (-1, 7) :=
  C10_lseek_bad_origin 4096 7 0 SEEK_END (by decide) (by decide)

/-- C7: starting from the armed count 0, after `n` semaphore-signal
deliveries the count equals `n`, exactly `n` consecutive `down_sema` calls
all complete without blocking, and one more call blocks — no duplicate and
no missed wakeups; the back-to-back scenario is the case `n = 2`. -/
theorem C7_sema_counting (n : Nat) :
    (runIrqs (List.replicate n sema_irq) ⟨0, 0⟩).semaCount = n ∧
    downsN n (runIrqs (List.replicate n sema_irq) ⟨0, 0⟩) = some ⟨0, 0⟩ ∧
    downsN (n + 1) (runIrqs (List.replicate n sema_irq) ⟨0, 0⟩) = none := by
  have hrun : runIrqs (List.replicate n sema_irq) ⟨0, 0⟩ = ⟨n, 0⟩ := by
    rw [runIrqs_replicate_sema]
    simp
  refine ⟨by rw [hrun], ?_, ?_⟩
  · rw [hrun]
    have h := downsN_exact n 0 0
    simpa using h
  · rw [hrun]
    exact downsN_blocks n 0

/-- A successful scan from index `k` means the reported index is the first
mismatch at or after `k`: the slot there differs from `index ^ seed` and
every earlier slot matches. -/
theorem scanFrom_some (d : Nat) :
    ∀ (mem : List Nat) (k n : Nat), scanFrom d mem k = some n →
      k ≤ n ∧ mem.get? (n - k) ≠ some (n ^^^ d) ∧
      ∀ m, k ≤ m → m < n → mem.get? (m - k) = some (m ^^^ d) := by
  intro mem
  induction mem with
  | nil =>
      intro k n h
      simp [scanFrom] at h
  | cons v rest ih =>
      intro k n h
      by_cases hv : v = k ^^^ d
      · have h' : scanFrom d rest (k + 1) = some n := by
          simpa [scanFrom, hv] using h
        obtain ⟨h1, h2, h3⟩ := ih (k + 1) n h'
        refine ⟨by omega, ?_, ?_⟩
        · rw [show n - k = (n - (k + 1)) + 1 by omega, List.get?_cons_succ]
          exact h2
        · intro m hkm hmn
          rcases Nat.eq_or_lt_of_le hkm with hEq | hLt
          · subst hEq
            simp [Nat.sub_self, hv]
          · rw [show m - k = (m - (k + 1)) + 1 by omega, List.get?_cons_succ]
            exact h3 m (by omega) hmn
      · have hkn : k = n := by
          simpa [scanFrom, hv] using h
        subst hkn
        refine ⟨Nat.le_refl k, ?_, ?_⟩
        · simp [Nat.sub_self, hv]
        · intro m hkm hmk
          omega

/-- If every slot from index `k` on matches `index ^ seed`, the scan
reports no mismatch. -/
theorem scanFrom_none_of_all_match (d : Nat) :
    ∀ (mem : List Nat) (k : Nat),
      (∀ i, i < mem.length → mem.get? i = some ((k + i) ^^^ d)) →
      scanFrom d mem k = none := by
  intro mem
  induction mem with
  | nil => intro k _; rfl
  | cons v rest ih =>
      intro k hall
      have h0 : v = k ^^^ d := by
        have h := hall 0 (by simp)
        simpa using h
      have hrest : ∀ i, i < rest.length → rest.get? i = some ((k + 1 + i) ^^^ d) := by
        intro i hi
        have h := hall (i + 1) (by simp; omega)
        rw [List.get?_cons_succ] at h
        rw [show k + 1 + i = k + (i + 1) by omega]
        exact h
      simp only [scanFrom, h0, ne_eq, not_true_eq_false, if_false]
      exact ih (k + 1) hrest

/-- A pass whose first scan hits a mismatch at `n` exits through the goto. -/
theorem verifyLoops_mismatch (mem : List Nat) (d : Nat) (s0 : Bool) (n l : Nat)
    (h : scanFrom d mem 0 = some n) :
    verifyLoops mem d s0 (l + 1) = ⟨1, true, some n⟩ := by
  simp [verifyLoops, h]

/-- Passes over a fully matching window finish with return value 0 and the
shutdown flag untouched. -/
theorem verifyLoops_match (mem : List Nat) (d : Nat) (s0 : Bool) :
    ∀ l : Nat, scanFrom d mem 0 = none → verifyLoops mem d s0 l = ⟨0, s0, none⟩ := by
  intro l h
  induction l with
  | zero => rfl
  | succ l ih => simp [verifyLoops, h, ih]

/-- C9: if the scan of the verify pass finds its first mismatch at index
`n`, the pass returns 1, sets the shutdown flag, and reports `n`, the slot
at `n` differing from `n ^ seed` while every earlier slot matches; if every
slot equals `index ^ seed`, the pass returns 0, reports no index, and
leaves the shutdown flag as it was. -/
theorem C9_verify_pass (mem : List Nat) (d : Nat) (s0 : Bool) (n : Nat) :
    (scanFrom d mem 0 = some n →
      memtest_verify mem d s0 = ⟨1, true, some n⟩ ∧
      mem.get? n ≠ some (n ^^^ d) ∧
      ∀ m, m < n → mem.get? m = some (m ^^^ d)) ∧
    ((∀ i, i < mem.length → mem.get? i = some (i ^^^ d)) →
      memtest_verify mem d s0 = ⟨0, s0, none⟩) := by
  constructor
  · intro h
    obtain ⟨h1, h2, h3⟩ := scanFrom_some d mem 0 n h
    refine ⟨verifyLoops_mismatch mem d s0 n 499 h, ?_, ?_⟩
    · simpa using h2
    · intro m hm
      have h4 := h3 m (Nat.zero_le m) hm
      simpa using h4
  · intro hall
    have hnone : scanFrom d mem 0 = none := by
      apply scanFrom_none_of_all_match
      intro i hi
      simpa using hall i hi
    exact verifyLoops_match mem d s0 TEST_LOOPS hnone

/-- C9 witness: the corrupted-slot-2 scenario with seed 42 on a four-slot
window, and the same window with all slots correct. -/
theorem C9_verify_witness :
    memtest_verify [42, 43, 999, 41] 42 false = ⟨1, true, some 2⟩ ∧
    memtest_verify [42, 43, 40, 41] 42 false = ⟨0, false, none⟩ :=
  ⟨((C9_verify_pass [42, 43, 999, 41] 42 false 2).1 rfl).1,
   (C9_verify_pass [42, 43, 40, 41] 42 false 0).2 (by decide)⟩

end Ivshmem
